import Mathlib

/-!
Verification of the Proustite robot control stack.

Shallow embedding of the Python sources of `proustite-python3`:

* `robot_interface.py` — heading integration (`_update_heading`), drift
  history (`drift_history` / `get_drift_rate`), and the ESP32 telemetry
  reader state machine (`_esp32_reader_thread`).
* `layer2_controller.py` — `Layer2Controller` (`set_velocity`, `update`,
  `set_ball_collector`, `stop`, `reset_heading`, `_normalize_angle`).
* `server.py` — the UDP command dispatch loop.
* `game_logic.py` — the `GameLogic` behavior state machine.

Python floats are modelled as real numbers where trigonometry is
involved (`ℝ`) and as rationals (`ℚ`) in the purely arithmetic game
logic and telemetry parsing, so that concrete runs evaluate. Side
effects on the two microcontroller serial links are reified as explicit
effect lists.
-/

open Real

namespace Proustite

/-! Angle normalization (`layer2_controller._normalize_angle`,
`robot_interface._update_heading`).

`math.atan2 y x` over the reals is the argument of the complex number
`x + y*I`, with range `(-π, π]`. -/

/-- Python `math.atan2 y x`, embedded as the complex argument of `x + y*I`. -/
noncomputable def atan2 (y x : ℝ) : ℝ :=
  Complex.arg ⟨x, y⟩

/-- Method `_normalize_angle(angle)` from `layer2_controller.py` (line 145) and the
renormalization step of `_update_heading` (line 161):
`math.atan2(math.sin(angle), math.cos(angle))`. -/
noncomputable def normalizeAngle (angle : ℝ) : ℝ :=
  atan2 (Real.sin angle) (Real.cos angle)

/-- The heading value stored by `RobotInterface._update_heading`
(lines 151-166): integrate `gyro_z * dt` onto the previous heading, then
renormalize with the two-argument arctangent. -/
noncomputable def updateHeadingValue (heading gyroZ dt : ℝ) : ℝ :=
  normalizeAngle (heading + gyroZ * dt)

/-! Drift history (`robot_interface.py` lines 51, 164, 190-199)

`self.drift_history = deque(maxlen=10)`; `append` drops the oldest
entry once the deque is full. -/

/-- Capacity of the drift history deque (`deque(maxlen=10)`). -/
def driftCapacity : ℕ := 10

/-- Operation `drift_history.append(x)` on a `deque(maxlen=10)`: append on the
right, evicting from the left whatever exceeds the capacity. -/
def pushDrift (hist : List ℝ) (x : ℝ) : List ℝ :=
  let h := hist ++ [x]
  h.drop (h.length - driftCapacity)

/-- Method `RobotInterface.get_drift_rate` (lines 190-199): `0.0` on an empty
history, else the arithmetic mean of the stored gyro-z readings. -/
noncomputable def getDriftRate (hist : List ℝ) : ℝ :=
  if hist.length = 0 then 0 else hist.sum / hist.length

/-! Layer2Controller (`layer2_controller.py`)

Controller state as mutated by `set_velocity`, `set_ball_collector`,
`reset_heading` and `stop`; `update` reads the state and a sensor
snapshot and emits serial-link effects without mutating the controller.
-/

/-- Effects written through `RobotInterface` by the controller and the
UDP server: `send_velocity_command`, `stop_movement`,
`set_ball_collector`, `reset_heading`. -/
inductive L2Effect : Type
  | sendVelocityCommand (vx vy omega : ℝ)
  | stopMovement
  | collectorWrite (mode : String)
  | resetHeadingCmd

/-- Mutable fields of `Layer2Controller` (constructor, lines 29-49). -/
structure L2State : Type where
  desiredVx : ℝ
  desiredVy : ℝ
  desiredOmega : ℝ
  targetHeading : Option ℝ
  driftCompensationEnabled : Bool
  ballCollectorMode : String
  lastCommandTime : ℝ
  commandTimeout : ℝ
  driftGain : ℝ

/-- Initial controller state (`__init__` with gain `g`, started at wall
clock `t0`): zero intent, no target heading, compensation on, collector
mode `stop`, watchdog timeout 1.0 s. -/
def l2Init (g t0 : ℝ) : L2State :=
  { desiredVx := 0, desiredVy := 0, desiredOmega := 0
    targetHeading := none
    driftCompensationEnabled := true
    ballCollectorMode := "stop"
    lastCommandTime := t0
    commandTimeout := 1
    driftGain := g }

/-- Method `Layer2Controller.set_velocity(vx, vy, omega)` (lines 54-74), called
at wall-clock time `now` while `SensorLink` reports heading
`robotHeading`: store the intent, refresh the watchdog stamp, then
clear the target heading when `|omega| > 0.01`, else latch the current
heading if no target is held. -/
noncomputable def setVelocity (st : L2State) (now robotHeading vx vy omega : ℝ) :
    L2State :=
  { st with
    desiredVx := vx
    desiredVy := vy
    desiredOmega := omega
    lastCommandTime := now
    targetHeading :=
      if |omega| > 0.01 then none
      else if st.targetHeading = none then some robotHeading
      else st.targetHeading }

/-- Method `Layer2Controller.set_ball_collector(mode)` (lines 76-86): write to
hardware only when the mode differs from the cached last mode. -/
def l2SetBallCollector (st : L2State) (mode : String) :
    L2State × List L2Effect :=
  if mode ≠ st.ballCollectorMode then
    ({ st with ballCollectorMode := mode }, [.collectorWrite mode])
  else (st, [])

/-- Method `Layer2Controller.stop()` (lines 149-156): zero the intent, send
`stop_movement` and a collector-stop straight to `RobotInterface`,
bypassing the `ball_collector_mode` cache. -/
def l2Stop (st : L2State) : L2State × List L2Effect :=
  ({ st with desiredVx := 0, desiredVy := 0, desiredOmega := 0 },
    [.stopMovement, .collectorWrite "stop"])

/-- Method `Layer2Controller.reset_heading()` (lines 96-100): forward the reset
to the robot and set the target heading to `0.0`. -/
def l2ResetHeading (st : L2State) : L2State × List L2Effect :=
  ({ st with targetHeading := some 0 }, [.resetHeadingCmd])

/-- Method `Layer2Controller.update()` (lines 102-143) at wall-clock `now`,
with the sensor snapshot (`get_heading`, `get_drift_rate`) passed in:
watchdog first (stop and return), else compute the drift-compensated
command and send it. Mutates no controller field. -/
noncomputable def l2Update (st : L2State) (now heading driftRate : ℝ) :
    List L2Effect :=
  if now - st.lastCommandTime > st.commandTimeout then
    [.stopMovement]
  else
    let cmdVx := st.desiredVx
    let cmdVy := st.desiredVy
    let cmdOmega := st.desiredOmega
    let cmdOmega :=
      if st.driftCompensationEnabled then
        if |st.desiredOmega| < 0.01 then
          match st.targetHeading with
          | some target =>
            let headingError := normalizeAngle (target - heading)
            let omegaCorrection := st.driftGain * headingError - driftRate
            let maxCorrection : ℝ := 1
            let omegaCorrection :=
              max (-maxCorrection) (min maxCorrection omegaCorrection)
            cmdOmega + omegaCorrection
          | none => cmdOmega
        else cmdOmega
      else cmdOmega
    [.sendVelocityCommand cmdVx cmdVy cmdOmega]

/-! ESP32 telemetry reader (`robot_interface._esp32_reader_thread`,
lines 87-149)

The reader accumulates labeled lines into the scratch dict
`current_reading` and, at the sentinel line `---`, commits it to
`latest_imu` when `len(current_reading) >= 7`, else discards it; the
scratch dict is emptied at every sentinel. Lines are classified by
`startswith` and extracted with `re.search`; we embed the stream at
the granularity of those classified lines, an extraction that failed
to match carrying `none`. IMU values are rationals. -/

/-- One line of the telemetry stream, as classified by the
`startswith` branches of the reader; each parsing payload is `none`
when the corresponding `re.search` found no match. `blank` is an empty
line (skipped), `other` any unrecognized line (ignored). -/
inductive TelemetryLine : Type
  | timeLine (t : Option ℕ)
  | accelLine (v : Option (ℚ × ℚ × ℚ))
  | gyroLine (v : Option (ℚ × ℚ × ℚ))
  | tempLine (v : Option ℚ)
  | sentinel
  | blank
  | other
  deriving DecidableEq, Repr

/-- The scratch dict `current_reading` (and also the committed
`latest_imu` dict, which holds whatever keys the committed scratch
had): which of the eight keys are present, with their values. The
`accel_x/y/z` keys are always set together by one regex match, likewise
`gyro_x/y/z`. -/
structure ImuReading : Type where
  timestamp : Option ℕ := none
  accel : Option (ℚ × ℚ × ℚ) := none
  gyro : Option (ℚ × ℚ × ℚ) := none
  tempC : Option ℚ := none
  deriving DecidableEq, Repr

/-- Dict size `len(current_reading)`: number of dict keys present (a matched
accel or gyro line contributes three keys each). -/
def ImuReading.dictLen (r : ImuReading) : ℕ :=
  (if r.timestamp.isSome then 1 else 0) +
    (if r.accel.isSome then 3 else 0) +
    (if r.gyro.isSome then 3 else 0) +
    (if r.tempC.isSome then 1 else 0)

/-- State of the reader loop: the scratch `current_reading` and the
shared `latest_imu`. -/
structure ReaderState : Type where
  currentReading : ImuReading
  latestImu : ImuReading
  deriving DecidableEq, Repr

/-- Contents of `latest_imu` as initialized in `RobotInterface.__init__`
(lines 39-44): all eight keys present, zero values. -/
def initLatestImu : ImuReading :=
  { timestamp := some 0, accel := some (0, 0, 0), gyro := some (0, 0, 0)
    tempC := some 0 }

/-- Reader state at thread start: empty scratch, initial `latest_imu`. -/
def initReaderState : ReaderState :=
  { currentReading := {}, latestImu := initLatestImu }

/-- One iteration of the reader loop body on a classified line
(lines 97-143): accumulate matched fields into the scratch; at the
sentinel, commit the scratch to `latest_imu` iff it has at least 7
keys, and empty the scratch either way. -/
def processLine (st : ReaderState) (l : TelemetryLine) : ReaderState :=
  match l with
  | .blank => st
  | .timeLine t =>
    match t with
    | some v => { st with currentReading.timestamp := some v }
    | none => st
  | .accelLine a =>
    match a with
    | some v => { st with currentReading.accel := some v }
    | none => st
  | .gyroLine g =>
    match g with
    | some v => { st with currentReading.gyro := some v }
    | none => st
  | .tempLine c =>
    match c with
    | some v => { st with currentReading.tempC := some v }
    | none => st
  | .sentinel =>
    if st.currentReading.dictLen ≥ 7 then
      { currentReading := {}, latestImu := st.currentReading }
    else { st with currentReading := {} }
  | .other => st

/-- Run the reader over a whole stream of classified lines. -/
def runReader (st : ReaderState) (stream : List TelemetryLine) : ReaderState :=
  stream.foldl processLine st

/-- Method `get_imu_data()` (lines 168-178): a copy of `latest_imu`. -/
def getImuData (st : ReaderState) : ImuReading :=
  st.latestImu

/-- The set of required frame fields, per the telemetry format comment
(lines 100-106) and the spec: timestamp, the accel triple, the gyro
triple and the temperature — all eight keys. -/
def ImuReading.complete (r : ImuReading) : Bool :=
  r.timestamp.isSome && r.accel.isSome && r.gyro.isSome && r.tempC.isSome

/-! Python string primitives used by the dispatcher and the behavior
engine, embedded structurally over the character list of a `String`
(so concrete commands evaluate inside the kernel). -/

/-- Python `s.startswith(pre)`. -/
def pyStartsWith (s pre : String) : Bool :=
  pre.data.isPrefixOf s.data

/-- Accumulator loop for `pySplit`. -/
def pySplitAux (sep : Char) : List Char → List Char → List String
  | [], acc => [⟨acc.reverse⟩]
  | c :: tl, acc =>
    if c = sep then ⟨acc.reverse⟩ :: pySplitAux sep tl []
    else pySplitAux sep tl (c :: acc)

/-- Python `s.split(sep)` for a one-character separator: splits at
every occurrence, keeping empty fields. -/
def pySplit (s : String) (sep : Char) : List String :=
  pySplitAux sep s.data []

/-- Python `s.lower()` (ASCII case folding, which is all the sources
use). -/
def pyLower (s : String) : String :=
  ⟨s.data.map Char.toLower⟩

/-- Recursive worker for the Python substring test. -/
def pyContainsAux (pat : List Char) : List Char → Bool
  | [] => pat.isEmpty
  | c :: tl => pat.isPrefixOf (c :: tl) || pyContainsAux pat tl

/-- Python substring test `pat in s`. -/
def pyContains (s pat : String) : Bool :=
  pyContainsAux pat.data s.data

/-! UDP command dispatch (`server.py` lines 80-126)

One received datagram, decoded and stripped, dispatched against the
five command forms. Python `float()` is abstracted as a parameter
`pf : String → Option ℝ` (`none` models a `ValueError`); all three
`float()` calls of a `VEL` command sit in one `try`, so any failure
rejects the whole command before `set_velocity` runs. Console prints
are returned as a log list. -/

/-- Dispatch of one datagram `cmd` against controller state `st`
(wall clock `now`, sensor heading `robotHeading`), mirroring the
`if/elif` chain of `server.py` lines 86-122. Returns the new state,
the robot-link effects and the console log lines. -/
noncomputable def handleCommand (pf : String → Option ℝ) (cmd : String)
    (st : L2State) (now robotHeading : ℝ) :
    L2State × List L2Effect × List String :=
  if pyStartsWith cmd "VEL," then
    match pySplit cmd ',' with
    | [_, s1, s2, s3] =>
      match pf s1, pf s2, pf s3 with
      | some vx, some vy, some omega =>
        (setVelocity st now robotHeading vx vy omega, [], [])
      | _, _, _ => (st, [], ["Invalid velocity values"])
    | _ => (st, [], ["Invalid VEL command format"])
  else if cmd = "STOP" then
    ((l2Stop st).1, (l2Stop st).2, [])
  else if pyStartsWith cmd "COLLECTOR," then
    match pySplit cmd ',' with
    | [_, m] =>
      let mode := pyLower m
      if mode = "forward" ∨ mode = "reverse" ∨ mode = "stop" then
        ((l2SetBallCollector st mode).1, (l2SetBallCollector st mode).2, [])
      else (st, [], ["Invalid collector mode"])
    | _ => (st, [], ["Invalid COLLECTOR command format"])
  else if cmd = "RESET_HEADING" then
    ((l2ResetHeading st).1, (l2ResetHeading st).2, [])
  else if cmd = "STATUS" then
    (st, [], ["STATUS"])
  else (st, [], ["Unknown command"])

/-! Behavior engine (`game_logic.py`)

`GameLogic.update(frame)` consumes vision detections and drives the
game state machine, writing velocity, stop and collector commands
directly on its `RobotInterface`. All numerics here are rational
(decimal literals are exact on `ℚ`); wall-clock time is a parameter. -/

/-- One vision detection `{label, center:(x,y), area}` as produced by
the vision collaborator (`vision.detect_objects`). -/
structure Detection : Type where
  label : String
  cx : ℚ
  cy : ℚ
  area : ℚ
  deriving DecidableEq, Repr

/-- A camera frame as the behavior engine sees it: its pixel
dimensions (`frame.shape`) and the detections extracted from it. -/
structure Frame : Type where
  width : ℕ
  height : ℕ
  detections : List Detection
  deriving DecidableEq, Repr

/-- Python `%` on floats with a positive divisor:
`a % b = a - b * floor (a / b)`. -/
def ratMod (a b : ℚ) : ℚ :=
  a - b * ⌊a / b⌋

/-- The game states of `GameLogic` (the `self.state` strings `IDLE`,
`SEARCH_BALL`, `APPROACH_BALL`, `COLLECTING`, `SEARCH_GOAL`,
`APPROACH_GOAL`, `DEPOSITING`, `LEAVE_GOAL`). -/
inductive GState : Type
  | idle
  | searchBall
  | approachBall
  | collecting
  | searchGoal
  | approachGoal
  | depositing
  | leaveGoal
  deriving DecidableEq, Repr

/-- Effects `GameLogic` produces on the robot. The embedding reifies
both the direct `RobotInterface` calls the code makes
(`sendVelocityCommand`, `stopMovement`, `setBallCollector`) and, as a
distinct observation, the `Layer2Controller.set_velocity` intent-entry
call (`controllerSetVelocity`) that the data-flow section of the spec
describes — so that which channel is used is visible in the trace. -/
inductive GEffect : Type
  | sendVelocityCommand (vx vy omega : ℚ)
  | stopMovement
  | setBallCollector (mode : String)
  | controllerSetVelocity (vx vy omega : ℚ)
  deriving DecidableEq, Repr

/-- Mutable fields of `GameLogic` (constructor, lines 8-43). -/
structure GameState : Type where
  targetGoalColor : String
  state : GState
  stateStartTime : ℚ
  ballsCollected : ℕ
  gameStartTime : ℚ
  ballWasCentered : Bool
  goalWasCentered : Bool
  lastCollectorMode : Option String
  targetBall : Option Detection
  deriving DecidableEq, Repr

/-- Method `GameLogic.set_ball_collector(mode)` (lines 45-48): write to the
robot only when `mode` differs from the cached `last_collector_mode`. -/
def gSetCollector (st : GameState) (mode : String) :
    GameState × List GEffect :=
  if some mode ≠ st.lastCollectorMode then
    ({ st with lastCollectorMode := some mode }, [.setBallCollector mode])
  else (st, [])

/-- Method `GameLogic.set_state(new_state)` (lines 50-53). -/
def gSetState (st : GameState) (s : GState) (t : ℚ) : GameState :=
  { st with state := s, stateStartTime := t }

/-- Python `max(ds, key=lambda d: d.area)` on a nonempty detection
list: the first detection of maximal area. -/
def maxByArea (hd : Detection) (tl : List Detection) : Detection :=
  tl.foldl (fun best b => if b.area > best.area then b else best) hd

/-- Method `GameLogic.stop_game()` (lines 60-63): go `IDLE`, stop movement,
stop the collector (de-duplicated). -/
def gStopGame (st : GameState) (t : ℚ) : GameState × List GEffect :=
  let st1 := gSetState st .idle t
  ((gSetCollector st1 "stop").1, .stopMovement :: (gSetCollector st1 "stop").2)

/-- Method `GameLogic.update(frame)` (lines 65-226) at wall-clock time `t`:
vision filtering, the game-duration check, then the state machine.
Returns the mutated `GameLogic` fields and the robot effects in
program order. A `none` frame returns immediately. -/
def gameUpdate (st : GameState) (frame : Option Frame) (t : ℚ) :
    GameState × List GEffect :=
  match frame with
  | none => (st, [])
  | some f =>
    let frameCenterX : ℚ := (f.width / 2 : ℕ)
    let balls := f.detections.filter (fun d => d.label == "Ball")
    let goals := f.detections.filter (fun d => pyContains d.label "Goal")
    let targetGoal := goals.filter
      (fun d => pyContains (pyLower d.label) (pyLower st.targetGoalColor))
    let p1 :=
      if st.state ≠ .idle ∧ t - st.gameStartTime > 150 then
        gStopGame st t
      else (st, [])
    let st1 := p1.1
    let p2 :=
      match st1.state with
      | .idle => (st1, [GEffect.stopMovement])
      | .searchBall =>
        let cA := gSetCollector st1 "forward"
        match balls with
        | b :: bs =>
          let closestBall := maxByArea b bs
          let stB := { cA.1 with
            targetBall := some closestBall, ballWasCentered := false }
          (gSetState stB .approachBall t, cA.2)
        | [] =>
          let searchTime := t - cA.1.stateStartTime
          let cycleTime := ratMod searchTime 5.5
          if cycleTime < 4.0 then
            (cA.1, cA.2 ++ [GEffect.sendVelocityCommand 0 0 2])
          else
            (cA.1, cA.2 ++ [GEffect.sendVelocityCommand 0.75 0 0.5])
      | .approachBall =>
        match balls with
        | [] =>
          if st1.ballWasCentered then
            let stA := { st1 with
              ballsCollected := st1.ballsCollected + 1
              ballWasCentered := false }
            if stA.ballsCollected ≥ 3 then
              (gSetState stA .searchGoal t, [])
            else
              (gSetState stA .searchBall t, [])
          else (gSetState st1 .searchBall t, [])
        | b :: bs =>
          let closestBall := maxByArea b bs
          let stA :=
            if closestBall.cy > (f.height : ℚ) * 0.85 then
              { st1 with ballWasCentered := true }
            else st1
          let errorX := frameCenterX - closestBall.cx
          let omega := errorX * 0.003
          if closestBall.area > 32000 then
            (gSetState stA .collecting t,
              [GEffect.sendVelocityCommand (0.75 / 2) 0 0])
          else
            let cB := gSetCollector stA "forward"
            (cB.1, GEffect.sendVelocityCommand 0.75 0 omega :: cB.2)
      | .collecting =>
        let cA := gSetCollector st1 "forward"
        let eVel := GEffect.sendVelocityCommand 0.75 0 0
        if t - cA.1.stateStartTime > 4.0 then
          let stB := { cA.1 with
            ballsCollected := cA.1.ballsCollected + 1
            ballWasCentered := false }
          if stB.ballsCollected ≥ 3 then
            (gSetState stB .searchGoal t, eVel :: cA.2)
          else
            (gSetState stB .searchBall t, eVel :: cA.2)
        else (cA.1, eVel :: cA.2)
      | .searchGoal =>
        let cA := gSetCollector st1 "forward"
        match targetGoal with
        | _ :: _ =>
          (gSetState { cA.1 with goalWasCentered := false } .approachGoal t,
            cA.2)
        | [] => (cA.1, cA.2 ++ [GEffect.sendVelocityCommand 0 0 2])
      | .approachGoal =>
        let cA := gSetCollector st1 "forward"
        match targetGoal with
        | [] => (gSetState cA.1 .searchGoal t, cA.2)
        | g :: gs =>
          let goal := maxByArea g gs
          let stB :=
            if |goal.cx - frameCenterX| < 100 then
              { cA.1 with goalWasCentered := true }
            else cA.1
          let errorX := frameCenterX - goal.cx
          let omega := errorX * 0.003
          if stB.goalWasCentered ∧ goal.area > 100000 then
            (gSetState stB .depositing t, cA.2)
          else
            (stB, cA.2 ++ [GEffect.sendVelocityCommand 0.75 0 omega])
      | .depositing =>
        let cA := gSetCollector st1 "reverse"
        let eVel := GEffect.sendVelocityCommand (-0.6) 0 0
        if t - cA.1.stateStartTime > 3 then
          let stB := { cA.1 with ballsCollected := 0 }
          (gSetState stB .leaveGoal t, cA.2 ++ [eVel])
        else (cA.1, cA.2 ++ [eVel])
      | .leaveGoal =>
        let cA := gSetCollector st1 "forward"
        let eVel := GEffect.sendVelocityCommand 0 0 2
        if t - cA.1.stateStartTime > 1.6 then
          (gSetState cA.1 .searchBall t, cA.2 ++ [eVel])
        else (cA.1, cA.2 ++ [eVel])
    (p2.1, p1.2 ++ p2.2)

/-! Helper lemmas -/

/-- Rewriting `normalizeAngle` into the `Complex.arg` form used by the
Mathlib argument lemmas. -/
lemma normalizeAngle_eq_arg (θ : ℝ) :
    normalizeAngle θ =
      Complex.arg (Complex.cos θ + Complex.sin θ * Complex.I) := by
  rw [normalizeAngle, atan2, Complex.mk_eq_add_mul_I, Complex.ofReal_cos,
    Complex.ofReal_sin]

/-- The normalized angle always lies in `(-π, π]`. -/
lemma normalizeAngle_mem_Ioc (θ : ℝ) :
    normalizeAngle θ ∈ Set.Ioc (-π) π := by
  rw [normalizeAngle_eq_arg]
  exact Complex.arg_mem_Ioc _

/-- Angles already in `(-π, π]` are fixed by `normalizeAngle`. -/
lemma normalizeAngle_eq_self {θ : ℝ} (h : θ ∈ Set.Ioc (-π) π) :
    normalizeAngle θ = θ := by
  rw [normalizeAngle_eq_arg]
  exact Complex.arg_cos_add_sin_mul_I h

/-- `normalizeAngle 0 = 0`. -/
lemma normalizeAngle_zero : normalizeAngle 0 = 0 :=
  normalizeAngle_eq_self ⟨by simpa using Real.pi_pos, Real.pi_pos.le⟩

/-- `normalizeAngle 1 = 1` (since `1 ∈ (-π, π]`). -/
lemma normalizeAngle_one : normalizeAngle 1 = 1 :=
  normalizeAngle_eq_self
    ⟨by linarith [Real.pi_pos], by linarith [Real.pi_gt_three]⟩

/-- The drift rate is invariant under permutation of the history. -/
lemma getDriftRate_perm {l l' : List ℝ} (h : l.Perm l') :
    getDriftRate l = getDriftRate l' := by
  unfold getDriftRate
  rw [h.length_eq, h.sum_eq]

/-- Folding `pushDrift` over an insertion sequence retains exactly the
last `driftCapacity` samples. -/
lemma foldl_pushDrift (xs : List ℝ) :
    xs.foldl pushDrift [] = xs.drop (xs.length - driftCapacity) := by
  induction xs using List.reverseRecOn with
  | nil => rfl
  | append_singleton ys x ih =>
    rw [List.foldl_append, List.foldl_cons, List.foldl_nil, ih]
    show ((ys.drop (ys.length - driftCapacity) ++ [x]).drop _) = _
    rw [← List.drop_append_of_le_length (Nat.sub_le _ _), List.drop_drop]
    congr 1
    simp only [List.length_append, List.length_drop, List.length_cons,
      List.length_nil]
    omega

/-! C6 — heading normalization -/

/-- C6: after every gyro-z integration step the stored heading lies in
`(-π, π]` (normalization via the two-argument arctangent of sine and
cosine), and `normalizeAngle` is idempotent. -/
theorem heading_normalized_and_idempotent :
    (∀ heading gyroZ dt : ℝ,
        updateHeadingValue heading gyroZ dt ∈ Set.Ioc (-π) π) ∧
    (∀ θ : ℝ, normalizeAngle (normalizeAngle θ) = normalizeAngle θ) := by
  constructor
  · intro heading gyroZ dt
    exact normalizeAngle_mem_Ioc _
  · intro θ
    exact normalizeAngle_eq_self (normalizeAngle_mem_Ioc θ)

/-! C7 — drift history ring buffer -/

/-- C7: after inserting more than `driftCapacity = 10` gyro-z samples
into the empty drift history, the buffer holds exactly the last 10
samples, the reported drift rate is their arithmetic mean, and that
mean is invariant under permutation of the retained samples. -/
theorem drift_history_ring_buffer (xs : List ℝ)
    (h : xs.length > driftCapacity) :
    (xs.foldl pushDrift []).length = driftCapacity ∧
    xs.foldl pushDrift [] = xs.drop (xs.length - driftCapacity) ∧
    getDriftRate (xs.foldl pushDrift []) =
      (xs.drop (xs.length - driftCapacity)).sum / driftCapacity ∧
    (∀ l : List ℝ, l.Perm (xs.foldl pushDrift []) →
      getDriftRate l = getDriftRate (xs.foldl pushDrift [])) := by
  have hlen : (xs.foldl pushDrift []).length = driftCapacity := by
    rw [foldl_pushDrift, List.length_drop]
    omega
  refine ⟨hlen, foldl_pushDrift xs, ?_, fun l hp => getDriftRate_perm hp⟩
  rw [getDriftRate, if_neg (by rw [hlen]; simp [driftCapacity]), hlen,
    foldl_pushDrift]

/-- Witness for C7: eleven inserted samples leave the last ten, whose
mean is reported. -/
theorem drift_history_ring_buffer_witness :
    getDriftRate (([5, 1, 2, 3, 4, 5, 6, 7, 8, 9, 10] : List ℝ).foldl
        pushDrift []) =
      (([5, 1, 2, 3, 4, 5, 6, 7, 8, 9, 10] : List ℝ).drop 1).sum / 10 := by
  have h := (drift_history_ring_buffer
    ([5, 1, 2, 3, 4, 5, 6, 7, 8, 9, 10] : List ℝ)
    (by simp [driftCapacity])).2.2.1
  simpa [driftCapacity] using h

/-! C1 — command watchdog -/

/-- C1: any `update()` tick happening strictly more than
`command_timeout` after the last intent write issues exactly a stop
command and no velocity command; `update` mutates no controller field,
so every later tick (any `now' ≥ now`, any sensor snapshot) does the
same until a new intent write refreshes `lastCommandTime`. -/
theorem watchdog_forces_stop (st : L2State) (now heading driftRate : ℝ)
    (h : now - st.lastCommandTime > st.commandTimeout) :
    l2Update st now heading driftRate = [.stopMovement] ∧
    (∀ vx vy omega : ℝ,
      L2Effect.sendVelocityCommand vx vy omega ∉
        l2Update st now heading driftRate) ∧
    (∀ now' heading' driftRate' : ℝ, now ≤ now' →
      l2Update st now' heading' driftRate' = [.stopMovement]) := by
  have hstop : ∀ n hd dr : ℝ, n - st.lastCommandTime > st.commandTimeout →
      l2Update st n hd dr = [.stopMovement] := by
    intro n hd dr hn
    unfold l2Update
    rw [if_pos hn]
  refine ⟨hstop now heading driftRate h, ?_, ?_⟩
  · intro vx vy omega
    rw [hstop now heading driftRate h]
    simp
  · intro now' heading' driftRate' hle
    exact hstop now' heading' driftRate' (by linarith)

/-- Witness for C1: with the watchdog stamp at 0 and a 1-second
timeout, a tick at `now = 2` stops the robot, as does a tick at
`now = 3`. -/
theorem watchdog_forces_stop_witness :
    l2Update (l2Init 2 0) 2 0 0 = [.stopMovement] ∧
    l2Update (l2Init 2 0) 3 5 5 = [.stopMovement] := by
  have h := watchdog_forces_stop (l2Init 2 0) 2 0 0 (by norm_num [l2Init])
  exact ⟨h.1, h.2.2 3 5 5 (by norm_num)⟩

/-! C4 — target-heading latch in `set_velocity` -/

/-- C4: a `set_velocity` call with `|omega| > 0.01` clears the target
heading; with `|omega| ≤ 0.01` and no held target it latches exactly
the heading read from the sensor at that call; and right after any
`set_velocity` call the invariant holds that a target heading is never
held while `|desired omega| > 0.01`. -/
theorem set_velocity_target_latch (st : L2State)
    (now robotHeading vx vy omega : ℝ) :
    (|omega| > 0.01 →
      (setVelocity st now robotHeading vx vy omega).targetHeading = none) ∧
    (|omega| ≤ 0.01 → st.targetHeading = none →
      (setVelocity st now robotHeading vx vy omega).targetHeading =
        some robotHeading) ∧
    (|(setVelocity st now robotHeading vx vy omega).desiredOmega| > 0.01 →
      (setVelocity st now robotHeading vx vy omega).targetHeading = none) := by
  refine ⟨fun h => ?_, fun h h0 => ?_, fun h => ?_⟩
  · simp only [setVelocity, if_pos h]
  · simp only [setVelocity, if_neg (not_lt.mpr h), if_pos h0]
  · simp only [setVelocity] at h ⊢
    rw [if_pos h]

/-- Witness for C4: rotating at `omega = 0.5` clears the target; the
following `omega = 0` call latches the heading `0.3` read at that very
call. -/
theorem set_velocity_target_latch_witness :
    (setVelocity (l2Init 2 0) 1 0.2 0 0 0.5).targetHeading = none ∧
    (setVelocity (setVelocity (l2Init 2 0) 1 0.2 0 0 0.5) 2 0.3 0 0
      0).targetHeading = some 0.3 := by
  have h1 := (set_velocity_target_latch (l2Init 2 0) 1 0.2 0 0 0.5).1
    (by rw [abs_of_pos] <;> norm_num)
  refine ⟨h1, ?_⟩
  exact (set_velocity_target_latch _ 2 0.3 0 0 0).2.1
    (by rw [abs_of_nonneg le_rfl]; norm_num) h1

/-! C3 — drift-compensation formula in `update()` -/

/-- Controller state probing the deadband boundary: desired intent
`omega = 0.01` exactly, drift compensation on, gain 1, target heading
`1` held, watchdog stamp fresh at time 0. -/
noncomputable def boundaryState : L2State :=
  { desiredVx := 0, desiredVy := 0, desiredOmega := 0.01
    targetHeading := some 1
    driftCompensationEnabled := true
    ballCollectorMode := "stop"
    lastCommandTime := 0
    commandTimeout := 1
    driftGain := 1 }

/-- Counterexample to C3 as stated: at `|desired omega| = 0.01`, i.e.
within the claimed `≤ ε` deadband, with compensation enabled and a
target heading held, `update()` emits the uncorrected `omega = 0.01`:
the deadband test in the code is strict (`abs(omega) < 0.01`), so the
claimed corrected value (here `0.01 + 1`) is not emitted. -/
theorem drift_correction_boundary_counterexample :
    boundaryState.driftCompensationEnabled = true ∧
    |boundaryState.desiredOmega| ≤ 0.01 ∧
    boundaryState.targetHeading = some 1 ∧
    l2Update boundaryState 0 0 0 = [.sendVelocityCommand 0 0 0.01] ∧
    (0.01 : ℝ) ≠ 0.01 + max (-1) (min 1
      (boundaryState.driftGain * normalizeAngle (1 - 0) - 0)) := by
  have hno : ¬ (|(0.01 : ℝ)| < 0.01) := by
    rw [abs_lt]
    intro hc
    linarith [hc.2]
  have hnorm : normalizeAngle ((1 : ℝ) - 0) = 1 := by
    rw [sub_zero, normalizeAngle_one]
  have habs : |boundaryState.desiredOmega| ≤ 0.01 := by
    rw [show boundaryState.desiredOmega = 0.01 from rfl, abs_le]
    norm_num
  refine ⟨rfl, habs, rfl, ?_, ?_⟩
  · unfold l2Update
    rw [if_neg (by norm_num [boundaryState])]
    simp only [boundaryState]
    norm_num [hno]
    intro hc
    rw [abs_lt] at hc
    linarith [hc.2]
  · rw [hnorm]
    norm_num [boundaryState]

/-- C3 amended (strict deadband): on a tick with a fresh watchdog, if
drift compensation is enabled, `|desired omega| < 0.01` (strictly
below ε), and a target heading is held, the emitted command carries the
desired `vx`, `vy` and `omega` plus the correction
`clamp(gain * normalize(target - heading) - driftRate, -1, 1)`;
otherwise (compensation disabled, `|desired omega| ≥ 0.01`, or no
target held) the desired intent is emitted uncorrected. -/
theorem drift_correction_formula (st : L2State) (now heading driftRate : ℝ)
    (hw : ¬ now - st.lastCommandTime > st.commandTimeout) :
    (∀ target, st.driftCompensationEnabled = true →
      |st.desiredOmega| < 0.01 → st.targetHeading = some target →
      l2Update st now heading driftRate =
        [.sendVelocityCommand st.desiredVx st.desiredVy
          (st.desiredOmega + max (-1) (min 1
            (st.driftGain * normalizeAngle (target - heading) -
              driftRate)))]) ∧
    ((st.driftCompensationEnabled = false ∨ 0.01 ≤ |st.desiredOmega| ∨
        st.targetHeading = none) →
      l2Update st now heading driftRate =
        [.sendVelocityCommand st.desiredVx st.desiredVy
          st.desiredOmega]) := by
  unfold l2Update
  rw [if_neg hw]
  constructor
  · intro target hen hlt htgt
    rw [hen, htgt]
    simp [hlt]
  · rintro (hen | hge | htgt)
    · simp [hen]
    · cases henb : st.driftCompensationEnabled <;>
        simp [henb, not_lt.mpr hge]
    · cases henb : st.driftCompensationEnabled <;> simp [henb, htgt]

/-- Controller state exercising the corrected branch: zero desired
rotation, target heading `0` held, gain 1. -/
noncomputable def formulaState : L2State :=
  { desiredVx := 0.2, desiredVy := 0, desiredOmega := 0
    targetHeading := some 0
    driftCompensationEnabled := true
    ballCollectorMode := "stop"
    lastCommandTime := 0
    commandTimeout := 1
    driftGain := 1 }

/-- Witness for the amended C3: at heading 0 with measured drift rate
`0.25`, the emitted omega is the feed-forward `-0.25`. -/
theorem drift_correction_formula_witness :
    l2Update formulaState 0 0 0.25 =
      [.sendVelocityCommand 0.2 0 (-0.25)] := by
  have h := (drift_correction_formula formulaState 0 0 0.25
    (by norm_num [formulaState])).1 0 rfl
    (by norm_num [formulaState]) rfl
  rw [h]
  norm_num [formulaState, sub_zero, normalizeAngle_zero]

/-! C10 — emergency stop vs. the collector de-duplication cache -/

/-- Mode physically last written to the collector hardware by a trace
of robot-link effects (`none` when no collector write occurred). -/
def lastCollectorWrite (effs : List L2Effect) : Option String :=
  effs.foldl (fun acc e =>
    match e with
    | .collectorWrite mode => some mode
    | _ => acc) none

/-- C10: `Layer2Controller.stop()` writes the collector-stop to
hardware without updating the cached `ball_collector_mode`; a
subsequent `set_ball_collector` request equal to the cached pre-stop
mode is de-duplicated into no hardware write, so the physical
collector stays stopped despite the request. -/
theorem stop_leaves_stale_collector_cache (st : L2State) (m : String)
    (hm : st.ballCollectorMode = m) :
    (l2Stop st).1.ballCollectorMode = m ∧
    (l2Stop st).2 = [.stopMovement, .collectorWrite "stop"] ∧
    (l2SetBallCollector (l2Stop st).1 m).2 = [] ∧
    lastCollectorWrite
      ((l2Stop st).2 ++ (l2SetBallCollector (l2Stop st).1 m).2) =
      some "stop" := by
  have h1 : (l2Stop st).1.ballCollectorMode = m := hm
  have h2 : (l2SetBallCollector (l2Stop st).1 m).2 = [] := by
    unfold l2SetBallCollector
    rw [if_neg (by simp [h1])]
  refine ⟨h1, rfl, h2, ?_⟩
  rw [h2]
  rfl

/-- Witness for C10: with the collector cached as `forward`, an
emergency stop followed by a `set_ball_collector "forward"` request
performs no hardware write, leaving the collector stopped. -/
theorem stop_leaves_stale_collector_cache_witness :
    (l2SetBallCollector
      (l2Stop { l2Init 2 0 with ballCollectorMode := "forward" }).1
      "forward").2 = [] ∧
    lastCollectorWrite
      ((l2Stop { l2Init 2 0 with ballCollectorMode := "forward" }).2 ++
        (l2SetBallCollector
          (l2Stop { l2Init 2 0 with ballCollectorMode := "forward" }).1
          "forward").2) = some "stop" := by
  have h := stop_leaves_stale_collector_cache
    { l2Init 2 0 with ballCollectorMode := "forward" } "forward" rfl
  exact ⟨h.2.2.1, h.2.2.2⟩

/-! C2 — telemetry frame atomicity -/

/-- A telemetry stream whose sentinel arrives although the time line
was never seen: matched accel, gyro and temperature lines set 7 of the
8 dict keys, then the sentinel ends the frame. -/
def truncatedStream : List TelemetryLine :=
  [.accelLine (some (0.1, 0.2, 9.8)),
   .gyroLine (some (0, 0, 0.3)),
   .tempLine (some 25.5),
   .sentinel]

/-- C2 (code behavior at the failing input): in `truncatedStream` the
sentinel is reached while the scratch record is still missing a
required field (`timestamp`), yet because the reader commits on
`len(current_reading) >= 7` — and a full frame has 8 keys — the
partial frame IS committed: `get_imu_data()` changes, and the
published sample itself lacks its timestamp. This contradicts the
claimed frame atomicity. -/
theorem telemetry_partial_frame_committed :
    (runReader initReaderState (truncatedStream.take 3)
      ).currentReading.complete = false ∧
    (runReader initReaderState truncatedStream).latestImu.timestamp =
      none ∧
    getImuData (runReader initReaderState truncatedStream) ≠
      getImuData initReaderState := by
  refine ⟨rfl, rfl, ?_⟩
  decide

/-! C8 — malformed command rejection by the UDP listener -/

/-- A datagram the listener must reject: a `VEL` command of the wrong
arity or with a value `float()` fails on, a `COLLECTOR` command of the
wrong arity or with an unknown mode, or an unknown verb, as matched by
the `if/elif` chain of `server.py`. -/
def malformedCommand (pf : String → Option ℝ) (cmd : String) : Prop :=
  (pyStartsWith cmd "VEL," ∧
    ((∀ x s1 s2 s3 : String, pySplit cmd ',' ≠ [x, s1, s2, s3]) ∨
      (∃ x s1 s2 s3 : String, pySplit cmd ',' = [x, s1, s2, s3] ∧
        (pf s1 = none ∨ pf s2 = none ∨ pf s3 = none)))) ∨
  (¬ pyStartsWith cmd "VEL," ∧ cmd ≠ "STOP" ∧
    pyStartsWith cmd "COLLECTOR," ∧
    ((∀ x m : String, pySplit cmd ',' ≠ [x, m]) ∨
      (∃ x m : String, pySplit cmd ',' = [x, m] ∧
        ¬ (pyLower m = "forward" ∨ pyLower m = "reverse" ∨
          pyLower m = "stop")))) ∨
  (¬ pyStartsWith cmd "VEL," ∧ cmd ≠ "STOP" ∧
    ¬ pyStartsWith cmd "COLLECTOR," ∧ cmd ≠ "RESET_HEADING" ∧
    cmd ≠ "STATUS")

/-- C8: a malformed datagram is rejected with no controller-state
mutation, no robot-link write, and a log line (the listener logs and
keeps running — `handleCommand` is a total function). -/
theorem malformed_command_rejected (pf : String → Option ℝ) (cmd : String)
    (st : L2State) (now robotHeading : ℝ)
    (h : malformedCommand pf cmd) :
    (handleCommand pf cmd st now robotHeading).1 = st ∧
    (handleCommand pf cmd st now robotHeading).2.1 = [] ∧
    (handleCommand pf cmd st now robotHeading).2.2 ≠ [] := by
  obtain ⟨hv, harm⟩ | ⟨hnv, hns, hc, harm⟩ | ⟨hnv, hns, hnc, hnr, hnst⟩ := h
  · rcases harm with hne | ⟨x, s1, s2, s3, heq, hpf⟩
    · unfold handleCommand
      rw [if_pos hv]
      split
      · rename_i x1 s1 s2 s3 heq1
        exact absurd heq1 (hne x1 s1 s2 s3)
      · exact ⟨rfl, rfl, by simp⟩
    · unfold handleCommand
      rw [if_pos hv, heq]
      cases hp1 : pf s1 <;> cases hp2 : pf s2 <;> cases hp3 : pf s3 <;>
        simp_all
  · unfold handleCommand
    rw [if_neg (by simp [hnv]), if_neg hns, if_pos hc]
    rcases harm with hne | ⟨x, m, heq, hmode⟩
    · split
      · rename_i x1 m1 heq1
        exact absurd heq1 (hne x1 m1)
      · exact ⟨rfl, rfl, by simp⟩
    · rw [heq]
      simp [hmode]
  · unfold handleCommand
    rw [if_neg (by simp [hnv]), if_neg hns, if_neg (by simp [hnc]),
      if_neg hnr, if_neg hnst]
    exact ⟨rfl, rfl, by simp⟩

/-- Witness for C8: with a `float()` that fails on every string, a
`VEL` command with a non-numeric field, a `COLLECTOR` command with an
unknown mode, and an unknown verb are all rejected without state
change or robot write. -/
theorem malformed_command_rejected_witness :
    ((handleCommand (fun _ => none) "VEL,a,0.0,0.0" (l2Init 2 0) 5 0).1 =
        l2Init 2 0 ∧
      (handleCommand (fun _ => none) "VEL,a,0.0,0.0"
        (l2Init 2 0) 5 0).2.1 = []) ∧
    ((handleCommand (fun _ => none) "COLLECTOR,sideways"
        (l2Init 2 0) 5 0).1 = l2Init 2 0 ∧
      (handleCommand (fun _ => none) "COLLECTOR,sideways"
        (l2Init 2 0) 5 0).2.1 = []) ∧
    ((handleCommand (fun _ => none) "FLY" (l2Init 2 0) 5 0).1 =
        l2Init 2 0 ∧
      (handleCommand (fun _ => none) "FLY" (l2Init 2 0) 5 0).2.1 = []) := by
  have h1 := malformed_command_rejected (fun _ => none) "VEL,a,0.0,0.0"
    (l2Init 2 0) 5 0
    (Or.inl ⟨by decide, Or.inr ⟨"VEL", "a", "0.0", "0.0", by decide,
      Or.inl rfl⟩⟩)
  have h2 := malformed_command_rejected (fun _ => none) "COLLECTOR,sideways"
    (l2Init 2 0) 5 0
    (Or.inr (Or.inl ⟨by decide, by decide, by decide,
      Or.inr ⟨"COLLECTOR", "sideways", by decide, by decide⟩⟩))
  have h3 := malformed_command_rejected (fun _ => none) "FLY"
    (l2Init 2 0) 5 0
    (Or.inr (Or.inr ⟨by decide, by decide, by decide, by decide,
      by decide⟩))
  exact ⟨⟨h1.1, h1.2.1⟩, ⟨h2.1, h2.2.1⟩, ⟨h3.1, h3.2.1⟩⟩

/-! Behavior-engine lemmas -/

/-- Unfolding one step of the Python `max` fold. -/
lemma maxByArea_cons (hd x : Detection) (xs : List Detection) :
    maxByArea hd (x :: xs) =
      maxByArea (if x.area > hd.area then x else hd) xs := rfl

/-- The detection selected by `max(..., key=area)` is one of the
candidates. -/
lemma maxByArea_mem (hd : Detection) (tl : List Detection) :
    maxByArea hd tl ∈ hd :: tl := by
  induction tl generalizing hd with
  | nil => simp [maxByArea]
  | cons x xs ih =>
    rw [maxByArea_cons]
    rcases List.mem_cons.mp (ih (if x.area > hd.area then x else hd)) with
      h | h
    · rw [h]
      split
      · simp
      · simp
    · simp [h]

/-- The detection selected by `max(..., key=area)` has maximal area. -/
lemma maxByArea_le (hd : Detection) (tl : List Detection) :
    ∀ d ∈ hd :: tl, d.area ≤ (maxByArea hd tl).area := by
  induction tl generalizing hd with
  | nil =>
    intro d hd2
    rw [List.mem_singleton.mp hd2]
    exact le_refl _
  | cons x xs ih =>
    intro d hmem
    rw [maxByArea_cons]
    have hstep : hd.area ≤ (if x.area > hd.area then x else hd).area ∧
        x.area ≤ (if x.area > hd.area then x else hd).area := by
      split
      · next hgt => exact ⟨le_of_lt hgt, le_refl _⟩
      · next hle => exact ⟨le_refl _, not_lt.mp hle⟩
    have hhead := ih (if x.area > hd.area then x else hd) _
      (List.mem_cons_self _ _)
    rcases List.mem_cons.mp hmem with h | hmem2
    · rw [h]
      exact le_trans hstep.1 hhead
    · rcases List.mem_cons.mp hmem2 with h | h
      · rw [h]
        exact le_trans hstep.2 hhead
      · exact ih _ d (List.mem_cons_of_mem _ h)

/-- Collector de-duplication touches only the cached mode: the game
state fields the state machine reads are unchanged. -/
lemma gSetCollector_fst (st : GameState) (m : String) :
    (gSetCollector st m).1.state = st.state ∧
    (gSetCollector st m).1.stateStartTime = st.stateStartTime ∧
    (gSetCollector st m).1.targetBall = st.targetBall ∧
    (gSetCollector st m).1.ballWasCentered = st.ballWasCentered := by
  unfold gSetCollector
  split <;> exact ⟨rfl, rfl, rfl, rfl⟩

/-! C9 — `SearchBall` target selection and search pattern -/

/-- C9: in `SEARCH_BALL` (with the game clock not expired), whenever
the ball-detection filter is nonempty the engine transitions to
`APPROACH_BALL` targeting the first detection of maximal bounding-box
area; with no ball detections it stays in `SEARCH_BALL` and, on a
5.5-second duty cycle, spins in place at the fixed search rate `2` for
the first 4 seconds and drives forward (with a slight turn) for the
rest. -/
theorem search_ball_behavior (st : GameState) (f : Frame) (t : ℚ)
    (hstate : st.state = .searchBall)
    (hgame : t - st.gameStartTime ≤ 150) :
    (∀ b bs,
      f.detections.filter (fun d => d.label == "Ball") = b :: bs →
      (gameUpdate st (some f) t).1.state = .approachBall ∧
      (gameUpdate st (some f) t).1.targetBall = some (maxByArea b bs) ∧
      maxByArea b bs ∈ b :: bs ∧
      (∀ d ∈ b :: bs, d.area ≤ (maxByArea b bs).area)) ∧
    (f.detections.filter (fun d => d.label == "Ball") = [] →
      (gameUpdate st (some f) t).1.state = .searchBall ∧
      (gameUpdate st (some f) t).2 =
        (gSetCollector st "forward").2 ++
          [if ratMod (t - st.stateStartTime) 5.5 < 4.0 then
            GEffect.sendVelocityCommand 0 0 2
          else GEffect.sendVelocityCommand 0.75 0 0.5]) := by
  have hlt : ¬ (150 < t - st.gameStartTime) := not_lt.mpr hgame
  constructor
  · intro b bs hballs
    refine ⟨?_, ?_, maxByArea_mem b bs, maxByArea_le b bs⟩ <;>
      simp [gameUpdate, hlt, hstate, hballs, gSetState]
  · intro hballs
    constructor
    · simp [gameUpdate, hlt, hstate, hballs, gSetState]
      split <;> simp [(gSetCollector_fst st "forward").1, hstate]
    · simp [gameUpdate, hlt, hstate, hballs, gSetState,
        (gSetCollector_fst st "forward").2.1]
      split <;> simp_all

/-- Concrete frame for the C9 witness: two balls of areas 500 and
1200. -/
def witnessFrame : Frame :=
  { width := 640, height := 480,
    detections :=
      [{ label := "Ball", cx := 100, cy := 50, area := 500 },
       { label := "Ball", cx := 300, cy := 60, area := 1200 }] }

/-- Concrete `SEARCH_BALL` game state for the C9 witness. -/
def witnessGameState : GameState :=
  { targetGoalColor := "blue", state := .searchBall, stateStartTime := 0
    ballsCollected := 0, gameStartTime := 0, ballWasCentered := false
    goalWasCentered := false, lastCollectorMode := some "forward"
    targetBall := none }

/-- Witness for C9: with detections of areas 500 and 1200 the engine
targets the area-1200 ball and transitions to `APPROACH_BALL`. -/
theorem search_ball_behavior_witness :
    (gameUpdate witnessGameState (some witnessFrame) 1).1.state =
      GState.approachBall ∧
    (gameUpdate witnessGameState (some witnessFrame) 1).1.targetBall =
      some { label := "Ball", cx := 300, cy := 60, area := 1200 } := by
  have h := (search_ball_behavior witnessGameState witnessFrame 1 rfl
    (by norm_num [witnessGameState])).1
    { label := "Ball", cx := 100, cy := 50, area := 500 }
    [{ label := "Ball", cx := 300, cy := 60, area := 1200 }]
    (by decide)
  refine ⟨h.1, ?_⟩
  rw [h.2.1]
  decide

/-! C5 — which channel the behavior engine writes through -/

/-- Modelled from the spec (§2 data flow, §3 ownership): an effect is a
delivery of velocity intent "through the same intent-setting entry
point the CommandProtocol uses" precisely when it is a
`controllerSetVelocity` call on the DriftCompensator, as opposed to a
direct actuator write. -/
def isIntentWrite : GEffect → Bool
  | .controllerSetVelocity _ _ _ => true
  | _ => false

/-- De-duplicated collector writes are never intent deliveries. -/
lemma gSetCollector_no_intent (st : GameState) (m : String) :
    ((gSetCollector st m).2.any isIntentWrite) = false := by
  unfold gSetCollector
  split <;> rfl

/-- `stop_game` produces no intent deliveries. -/
lemma gStopGame_no_intent (st : GameState) (t : ℚ) :
    ((gStopGame st t).2.any isIntentWrite) = false := by
  unfold gStopGame
  simp [isIntentWrite, gSetCollector_no_intent]

/-- Counterexample to C5 as stated: in `SEARCH_BALL` with no
detections, `GameLogic.update` emits a velocity command as a direct
`RobotInterface.send_velocity_command` write — not through the
controller intent entry point — so this intent is not subject to the
watchdog or drift compensation. -/
theorem behavior_engine_direct_write_counterexample :
    (gameUpdate witnessGameState
      (some { width := 640, height := 480, detections := [] }) 1).2 =
      [GEffect.sendVelocityCommand 0 0 2] ∧
    isIntentWrite (GEffect.sendVelocityCommand 0 0 2) = false := by
  refine ⟨?_, rfl⟩
  have hmod : ratMod (1 : ℚ) 5.5 < 4.0 := by
    rw [ratMod]
    norm_num
  simp [gameUpdate, witnessGameState, gSetCollector, gSetState, hmod]

/-- C5 amended: every effect the behavior engine produces is a direct
`RobotInterface` call; it never delivers velocity intent through the
`set_velocity` intent entry point the CommandProtocol uses (and hence
its commands bypass the watchdog and drift compensation). -/
theorem behavior_engine_bypasses_intent_entry (st : GameState)
    (frame : Option Frame) (t : ℚ) :
    ((gameUpdate st frame t).2.any isIntentWrite) = false := by
  cases frame with
  | none => rfl
  | some f =>
    simp only [gameUpdate, List.any_append, Bool.or_eq_false_iff]
    constructor
    · split
      · exact gStopGame_no_intent _ _
      · rfl
    · split <;> (repeat' split) <;>
        simp_all [isIntentWrite, gSetCollector_no_intent]

end Proustite
